import Mathlib

/-!
Verification development for the denuncias enrichment service (src/main.py).

The program streams complaint documents from a source collection, enriches
each one with six fields derived from the transcript by a language model,
classifies the record, and writes the results to a destination collection in
batches of at most 400 writes.

Shallow embedding conventions:
* a Firestore document's field mapping (`doc.to_dict()`) is an association
  list `Dict` of string keys to string values, with Python-dict semantics:
  lookup at the first occurrence of a key, assignment replaces the value in
  place or appends a fresh key at the end;
* the language model, the secret manager and the stores are external
  collaborators; their per-call outcomes are inputs to the embedded
  functions (an `Except String` value standing for "returned normally" or
  "raised an exception with this message");
* `time.sleep` is modelled by accumulating the slept duration in a counter;
* raw model responses are lists of characters, so that the fence-stripping
  slice arithmetic of main.py lines 88-92 is embedded exactly.
-/

/-- Field mapping of a document: insertion-ordered association list, as a
Python dict restricted to the string-valued fields the program manipulates. -/
abbrev Dict := List (String × String)

/-- Python `d[key]` read / `d.get(key)`: value at the first occurrence of
`key`, if any. -/
def dictGet : Dict → String → Option String
  | [], _ => none
  | (k, v) :: rest, key => if k = key then some v else dictGet rest key

/-- Python `d.get(key, default)`. -/
def dictGetD (d : Dict) (key dflt : String) : String :=
  (dictGet d key).getD dflt

/-- Python `d[key] = val`: replace the value at the first occurrence of
`key`, or append the binding if `key` is absent. -/
def dictSet : Dict → String → String → Dict
  | [], key, val => [(key, val)]
  | (k, v) :: rest, key, val =>
      if k = key then (key, val) :: rest else (k, v) :: dictSet rest key val

theorem dictGet_dictSet (d : Dict) (k : String) (v : String) (q : String) :
    dictGet (dictSet d k v) q = if k = q then some v else dictGet d q := by
  induction d with
  | nil => simp [dictSet, dictGet]
  | cons hd tl ih =>
      obtain ⟨k0, v0⟩ := hd
      by_cases h0 : k0 = k
      · subst h0
        by_cases hq : k0 = q <;> simp [dictSet, dictGet, hq]
      · by_cases hq : k0 = q
        · subst hq
          have : ¬ k = k0 := fun h => h0 h.symm
          simp [dictSet, dictGet, h0, this]
        · simp [dictSet, dictGet, h0, hq, ih]

theorem dictGet_dictSet_self (d : Dict) (k : String) (v : String) :
    dictGet (dictSet d k v) k = some v := by
  simp [dictGet_dictSet]

theorem dictGet_dictSet_ne (d : Dict) (k : String) (v : String) (q : String)
    (h : k ≠ q) : dictGet (dictSet d k v) q = dictGet d q := by
  simp [dictGet_dictSet, h]

/-- Python `str.upper()` on the ASCII fragment the program compares against
("SI" / "NO" / "Error"). -/
def pyUpper (s : String) : String := ⟨s.data.map Char.toUpper⟩

/-- The degraded result built at main.py line 104 when the outer handler of
`synthesize_and_extract` catches an exception `e`:
`{"sintesis": f"Error: {str(e)}", "tiempo": "Error", ..., "es_anonima": "Error"}`. -/
def degradedDict (e : String) : Dict :=
  [("sintesis", "Error: " ++ e), ("tiempo", "Error"), ("modo", "Error"),
   ("circunstancia", "Error"), ("alcaldia", "Error"), ("es_anonima", "Error")]

/-- Per-document enrichment, main.py lines 135-164: given the source
document's fields and the value returned by `synthesize_and_extract`
(`none` embeds Python `None`), produce the field mapping staged for the
destination write.  Python truthiness: a string is truthy iff non-empty, a
dict is truthy iff non-empty. -/
def enrichDoc (doc_data : Dict) (extracted_data : Option Dict) : Dict :=
  let transcript := dictGetD doc_data "Transcript" ""
  if transcript ≠ "" then
    match extracted_data with
    | some ed =>
        if ed ≠ [] then
          let d := dictSet doc_data "Síntesis" (dictGetD ed "sintesis" "")
          let d := dictSet d "Tiempo" (dictGetD ed "tiempo" "")
          let d := dictSet d "Modo" (dictGetD ed "modo" "")
          let d := dictSet d "Circunstancia" (dictGetD ed "circunstancia" "")
          let d := dictSet d "Alcaldía" (dictGetD ed "alcaldia" "")
          let es_anonima := pyUpper (dictGetD ed "es_anonima" "NO")
          let d := dictSet d "¿Es anónima?" es_anonima
          if es_anonima = "SI" then dictSet d "Registro" "Aviso"
          else dictSet d "Registro" "Denuncia"
        else doc_data
    | none => doc_data
  else
    let d := dictSet doc_data "Síntesis" "No Transcript available."
    let d := dictSet d "Tiempo" "N/A"
    let d := dictSet d "Modo" "N/A"
    let d := dictSet d "Circunstancia" "N/A"
    let d := dictSet d "Alcaldía" "N/A"
    let d := dictSet d "¿Es anónima?" "N/A"
    dictSet d "Registro" "N/A"

/-- The seven field names the enricher writes (six derived fields plus the
classification field). -/
def derivedKeys : List String :=
  ["Síntesis", "Tiempo", "Modo", "Circunstancia", "Alcaldía",
   "¿Es anónima?", "Registro"]

example :
    dictGet (enrichDoc [("Transcript", "x")] (some [("es_anonima", "si")]))
      "Registro" = some "Aviso" := by decide

example :
    dictGet (enrichDoc [("Transcript", "x")] (some [("es_anonima", "no way")]))
      "Registro" = some "Denuncia" := by decide

example :
    dictGet (enrichDoc [("Transcript", "")] none) "Síntesis" =
      some "No Transcript available." := by decide

/-! ## Retry loop of `synthesize_and_extract` (main.py lines 38-104)

Each iteration of the `for attempt in range(max_retries)` loop builds the
prompt, calls the model, strips fences and parses the JSON.  Those effects
are summarised per attempt by an oracle `outcomes : Nat → Except String Dict`
giving, for each attempt index, either the parsed object the attempt would
return or the message of the exception it would raise.  A slept-time counter
replaces `time.sleep`. -/

/-- main.py line 58. -/
def max_retries : Nat := 3

/-- main.py line 59: initial backoff delay in seconds. -/
def initial_retry_delay : Nat := 5

/-- Contiguous-substring test on character lists (Python `in` on `str`). -/
def hasInfix (needle : List Char) : List Char → Bool
  | [] => needle.isEmpty
  | c :: rest => needle.isPrefixOf (c :: rest) || hasInfix needle rest

/-- Python `"429" in str(e)` (main.py line 96). -/
def is429 (e : String) : Bool := hasInfix "429".data e.data

/-- The `for attempt in range(max_retries)` loop, main.py lines 61-101.
Arguments: remaining iterations (fuel), current `attempt` index, current
`retry_delay`, seconds slept so far.  Result: `.ok (some d)` for
`return json.loads(...)`, `.error e` for `raise e` escaping the loop, and
`.ok none` for the (unreachable) fall-through that would return `None`;
paired with the total seconds slept. -/
def retryLoop (outcomes : Nat → Except String Dict) :
    Nat → Nat → Nat → Nat → Except String (Option Dict) × Nat
  | 0, _, _, slept => (.ok none, slept)
  | fuel + 1, attempt, retry_delay, slept =>
      match outcomes attempt with
      | .ok d => (.ok (some d), slept)
      | .error e =>
          if is429 e = true ∧ attempt < max_retries - 1 then
            retryLoop outcomes fuel (attempt + 1) (retry_delay * 2)
              (slept + retry_delay)
          else (.error e, slept)

/-- Body of the outer `try` of `synthesize_and_extract`, lines 53-101:
run the retry loop from attempt 0 with the initial delay. -/
def retryBody (outcomes : Nat → Except String Dict) :
    Except String (Option Dict) × Nat :=
  retryLoop outcomes max_retries 0 initial_retry_delay 0

/-- `synthesize_and_extract`, main.py lines 38-104: return `None` when no
API key is supplied (line 40-41); otherwise run the retry loop, and if an
exception escapes it, catch it (lines 102-104) and return the degraded
object in its place.  The `Except` layer records whether the call raises to
its caller: `.error` would mean an uncaught exception. -/
def synthesize_and_extract (outcomes : Nat → Except String Dict)
    (api_key : String) : Except String (Option Dict) × Nat :=
  if api_key = "" then (.ok none, 0)
  else
    match retryBody outcomes with
    | (.error e, slept) => (.ok (some (degradedDict e)), slept)
    | r => r

/-! ## Batched write loop of `process_denuncias` (main.py lines 126-183)

The Firestore stream is a list of `(doc.id, doc.to_dict())` pairs; the
extraction outcome for each document is an oracle argument (the model's
answer for that document).  A `WriteBatch` is the list of staged
`(destination key, fields)` writes; `batch.commit()` appends the staged
batch to the list of committed batches.  The 2-second pacing sleep of line
172 has no effect on the data flow and is not tracked here. -/

/-- Loop state: the in-progress batch (`batch` with `batch_count` its
length) and the batches committed so far. -/
structure RunState where
  batch : List (String × Dict)
  committed : List (List (String × Dict))

/-- Body of `for doc in docs:` (main.py lines 132-177) for one document:
enrich, stage the write (`batch.set`), and when the staged count reaches
400, commit and start a new empty batch. -/
def runStep (extract : String → Dict → Option Dict) (st : RunState)
    (doc : String × Dict) : RunState :=
  let enriched := enrichDoc doc.2 (extract doc.1 doc.2)
  let batch := st.batch ++ [(doc.1, enriched)]
  if batch.length ≥ 400 then ⟨[], st.committed ++ [batch]⟩
  else ⟨batch, st.committed⟩

/-- The whole `for` loop, starting from `batch = db.batch()`,
`batch_count = 0` (main.py lines 128-177). -/
def runLoop (extract : String → Dict → Option Dict)
    (docs : List (String × Dict)) : RunState :=
  docs.foldl (runStep extract) ⟨[], []⟩

/-- The loop followed by the trailing `if batch_count > 0: batch.commit()`
(main.py lines 181-183): the list of committed batches of the run. -/
def runCommits (extract : String → Dict → Option Dict)
    (docs : List (String × Dict)) : List (List (String × Dict)) :=
  let st := runLoop extract docs
  if st.batch.length > 0 then st.committed ++ [st.batch] else st.committed

example :
    synthesize_and_extract
      (fun i => if i = 0 then .error "429 x" else .ok [("sintesis", "s")])
      "key" = (.ok (some [("sintesis", "s")]), 5) := rfl

example :
    synthesize_and_extract (fun _ => .error "HTTP 429 quota") "key" =
      (.ok (some (degradedDict "HTTP 429 quota")), 15) := rfl

example :
    synthesize_and_extract (fun _ => .error "boom") "key" =
      (.ok (some (degradedDict "boom")), 0) := rfl

/-! ## Response clean-up and JSON parsing (main.py lines 85-94)

The raw model response (`response.text`) is a character list.  Lines 88-92
strip surrounding whitespace, then a leading code-fence marker and a
trailing code-fence marker; `json.loads` is modelled by a recursive-descent
JSON reader over the cleaned characters (string escape sequences and number
tokens are kept as their raw character runs, which is enough to compare the
values two parses produce). -/

/-- The backquote character. -/
def backquote : Char := Char.ofNat 96

/-- The opening-brace character. -/
def lbrace : Char := Char.ofNat 123

/-- The closing-brace character. -/
def rbrace : Char := Char.ofNat 125

/-- Whitespace for Python `str.strip()` (ASCII fragment). -/
def isPyWs (c : Char) : Bool :=
  c = ' ' || c = '\t' || c = '\n' || c = '\r' || c = Char.ofNat 11 ||
    c = Char.ofNat 12

/-- Python `str.strip()`: drop whitespace from both ends. -/
def pyStrip (s : List Char) : List Char :=
  ((s.dropWhile isPyWs).reverse.dropWhile isPyWs).reverse

/-- The leading fence marker of main.py line 89. -/
def fenceOpen : List Char :=
  [backquote, backquote, backquote, 'j', 's', 'o', 'n']

/-- The trailing fence marker of main.py line 91. -/
def fenceClose : List Char := [backquote, backquote, backquote]

/-- Lines 88-92: `content = response.text.strip()`; if it starts with the
7-character opening fence, drop 7 characters (`content[7:]`); if it ends
with the 3-character closing fence, drop the last 3 (`content[:-3]`). -/
def cleanContent (s : List Char) : List Char :=
  let content := pyStrip s
  let content :=
    if fenceOpen.isPrefixOf content then content.drop 7 else content
  if fenceClose.isSuffixOf content then content.take (content.length - 3)
  else content

/-- JSON values as `json.loads` produces them, with number tokens and
string bodies kept as raw character runs. -/
inductive JVal where
  | jnull : JVal
  | jbool : Bool → JVal
  | jnum : List Char → JVal
  | jstr : List Char → JVal
  | jarr : List JVal → JVal
  | jobj : List (List Char × JVal) → JVal

/-- JSON insignificant whitespace. -/
def isJsonWs (c : Char) : Bool := c = ' ' || c = '\t' || c = '\n' || c = '\r'

/-- Skip insignificant whitespace. -/
def skipWs (s : List Char) : List Char := s.dropWhile isJsonWs

/-- Characters a number token is drawn from. -/
def isNumChar (c : Char) : Bool :=
  c.isDigit || c = '-' || c = '+' || c = '.' || c = 'e' || c = 'E'

/-- Read a string body up to the closing quote, keeping escape pairs raw. -/
def parseStringBody : Nat → List Char → Option (List Char × List Char)
  | 0, _ => none
  | _ + 1, [] => none
  | fuel + 1, c :: rest =>
      if c = '"' then some ([], rest)
      else if c = '\\' then
        match rest with
        | [] => none
        | esc :: rest2 =>
            match parseStringBody fuel rest2 with
            | some (body, rem) => some (c :: esc :: body, rem)
            | none => none
      else
        match parseStringBody fuel rest with
        | some (body, rem) => some (c :: body, rem)
        | none => none

mutual

/-- Read one JSON value, returning it with the unconsumed remainder. -/
def parseVal : Nat → List Char → Option (JVal × List Char)
  | 0, _ => none
  | fuel + 1, s =>
      match skipWs s with
      | [] => none
      | c :: rest =>
          if c = '"' then
            match parseStringBody (rest.length + 1) rest with
            | some (body, rem) => some (.jstr body, rem)
            | none => none
          else if c = lbrace then parseObj fuel rest
          else if c = '[' then parseArr fuel rest
          else if c = 't' then
            if ['r', 'u', 'e'].isPrefixOf rest then
              some (.jbool true, rest.drop 3)
            else none
          else if c = 'f' then
            if ['a', 'l', 's', 'e'].isPrefixOf rest then
              some (.jbool false, rest.drop 4)
            else none
          else if c = 'n' then
            if ['u', 'l', 'l'].isPrefixOf rest then
              some (.jnull, rest.drop 3)
            else none
          else if c.isDigit || c = '-' then
            let lex := (c :: rest).takeWhile isNumChar
            some (.jnum lex, (c :: rest).drop lex.length)
          else none

/-- Read the fields of an object, the opening brace already consumed. -/
def parseObj : Nat → List Char → Option (JVal × List Char)
  | 0, _ => none
  | fuel + 1, s =>
      match skipWs s with
      | c :: rest => if c = rbrace then some (.jobj [], rest)
                     else parseFields fuel [] s
      | [] => none

/-- Read `"key": value` pairs separated by commas, up to the brace. -/
def parseFields (fuel : Nat) (acc : List (List Char × JVal)) :
    List Char → Option (JVal × List Char) :=
  fun s =>
    match fuel with
    | 0 => none
    | fuel + 1 =>
        match skipWs s with
        | c :: rest =>
            if c = '"' then
              match parseStringBody (rest.length + 1) rest with
              | some (key, rem) =>
                  match skipWs rem with
                  | c2 :: rem2 =>
                      if c2 = ':' then
                        match parseVal fuel rem2 with
                        | some (v, rem3) =>
                            match skipWs rem3 with
                            | c3 :: rem4 =>
                                if c3 = ',' then
                                  parseFields fuel (acc ++ [(key, v)]) rem4
                                else if c3 = rbrace then
                                  some (.jobj (acc ++ [(key, v)]), rem4)
                                else none
                            | [] => none
                        | none => none
                      else none
                  | [] => none
              | none => none
            else none
        | [] => none

/-- Read the elements of an array, the opening bracket already consumed. -/
def parseArr : Nat → List Char → Option (JVal × List Char)
  | 0, _ => none
  | fuel + 1, s =>
      match skipWs s with
      | c :: rest => if c = ']' then some (.jarr [], rest)
                     else parseElems fuel [] s
      | [] => none

/-- Read comma-separated array elements up to the closing bracket. -/
def parseElems (fuel : Nat) (acc : List JVal) :
    List Char → Option (JVal × List Char) :=
  fun s =>
    match fuel with
    | 0 => none
    | fuel + 1 =>
        match parseVal fuel s with
        | some (v, rem) =>
            match skipWs rem with
            | c :: rem2 =>
                if c = ',' then parseElems fuel (acc ++ [v]) rem2
                else if c = ']' then some (.jarr (acc ++ [v]), rem2)
                else none
            | [] => none
        | none => none

end

/-- Model of `json.loads`: read one value and require only whitespace
after it (the decoder rejects trailing data). -/
def jsonLoads (s : List Char) : Option JVal :=
  match parseVal (2 * s.length + 2) s with
  | some (v, rest) => if skipWs rest = [] then some v else none
  | none => none

theorem pyStrip_ends (a b : Char) (m : List Char)
    (ha : isPyWs a = false) (hb : isPyWs b = false) :
    pyStrip (a :: (m ++ [b])) = a :: (m ++ [b]) := by
  unfold pyStrip
  rw [List.dropWhile_cons]
  simp only [ha, Bool.false_eq_true, if_false]
  rw [show (a :: (m ++ [b])).reverse = b :: (m.reverse ++ [a]) by simp]
  rw [List.dropWhile_cons]
  simp only [hb, Bool.false_eq_true, if_false]
  simp

/-- Stripping the fences from a fenced payload recovers the payload
exactly: the strip of line 88 is the identity (the fenced text begins and
ends with a backquote), line 90 removes precisely the 7 leading fence
characters and line 92 precisely the 3 trailing ones. -/
theorem cleanContent_fenced (s : List Char) :
    cleanContent (fenceOpen ++ (s ++ fenceClose)) = s := by
  have hshape : fenceOpen ++ (s ++ fenceClose) =
      backquote ::
        (([backquote, backquote, 'j', 's', 'o', 'n'] ++
          (s ++ [backquote, backquote])) ++ [backquote]) := by
    simp [fenceOpen, fenceClose]
  have h1 : pyStrip (fenceOpen ++ (s ++ fenceClose)) =
      fenceOpen ++ (s ++ fenceClose) := by
    rw [hshape]
    exact pyStrip_ends _ _ _ (by decide) (by decide)
  have h2 : fenceOpen.isPrefixOf (fenceOpen ++ (s ++ fenceClose)) = true := by
    simp [List.isPrefixOf_iff_prefix]
  have h3 : (fenceOpen ++ (s ++ fenceClose)).drop 7 = s ++ fenceClose :=
    List.drop_left' (by rfl)
  have h4 : fenceClose.isSuffixOf (s ++ fenceClose) = true := by
    simp [List.isSuffixOf_iff_suffix]
  have h5 : (s ++ fenceClose).take ((s ++ fenceClose).length - 3) = s :=
    List.take_left' (by simp [fenceClose])
  simp only [cleanContent, h1, h2, if_true, h3, h4, h5]

/-! ## Weekday label from the report date (main.py lines 43-51)

`datetime.strptime(report_date, "%m/%d/%Y")` accepts a 1-2 digit month, a
slash, a 1-2 digit day, a slash and a 4-digit year, matching the whole
string, and validates the ranges (month 1-12, day within the month's
length, year at least 1).  On success the weekday (Monday = 0) indexes the
Spanish day names; any parse failure is swallowed by the bare `except` and
leaves the label "Desconocido". -/

/-- Digit run to its value. -/
def digitsToNat (ds : List Char) : Nat :=
  ds.foldl (fun n c => n * 10 + (c.toNat - 48)) 0

/-- Gregorian leap-year rule. -/
def isLeap (y : Nat) : Bool := y % 4 = 0 && (y % 100 ≠ 0 || y % 400 = 0)

/-- Length of a month, as `datetime` validates the day against. -/
def daysInMonth (y m : Nat) : Nat :=
  if m = 2 then (if isLeap y then 29 else 28)
  else if m = 4 || m = 6 || m = 9 || m = 11 then 30
  else 31

/-- Days in the months before month `m` of a year with leap flag `leap`. -/
def daysBeforeMonth (leap : Bool) (m : Nat) : Nat :=
  (match m with
   | 1 => 0 | 2 => 31 | 3 => 59 | 4 => 90 | 5 => 120 | 6 => 151
   | 7 => 181 | 8 => 212 | 9 => 243 | 10 => 273 | 11 => 304 | _ => 334) +
  (if leap && m > 2 then 1 else 0)

/-- Proleptic-Gregorian day number of `y-m-d` (0001-01-01 is day 1). -/
def rataDie (y m d : Nat) : Nat :=
  365 * (y - 1) + (y - 1) / 4 - (y - 1) / 100 + (y - 1) / 400 +
    daysBeforeMonth (isLeap y) m + d

/-- Python `datetime.weekday()`: Monday is 0.  0001-01-01 (day 1) was a
Monday in the proleptic Gregorian calendar. -/
def pyWeekday (y m d : Nat) : Nat := (rataDie y m d - 1) % 7

/-- `datetime.strptime(report_date, "%m/%d/%Y")` as a total function:
`some (m, d, y)` on the strings the call accepts, `none` where it raises
`ValueError`. -/
def parseMMDDYYYY (s : List Char) : Option (Nat × Nat × Nat) :=
  match s.splitOn '/' with
  | [ms, ds, ys] =>
      if ms.all Char.isDigit && ds.all Char.isDigit && ys.all Char.isDigit &&
          1 ≤ ms.length && ms.length ≤ 2 && 1 ≤ ds.length &&
          ds.length ≤ 2 && ys.length = 4 then
        let m := digitsToNat ms
        let d := digitsToNat ds
        let y := digitsToNat ys
        if 1 ≤ m && m ≤ 12 && 1 ≤ d && d ≤ daysInMonth y m && 1 ≤ y then
          some (m, d, y)
        else none
      else none
  | _ => none

/-- Spanish weekday names, main.py line 48, indexed by `weekday()`. -/
def diasSemana : List String :=
  ["Lunes", "Martes", "Miércoles", "Jueves", "Viernes", "Sábado", "Domingo"]

/-- Lines 44-51: the weekday label fed into the prompt.  Starts as
"Desconocido" and is replaced only when `strptime` succeeds; the bare
`except: pass` makes every failure land on the initial value. -/
def day_of_week_str (report_date : String) : String :=
  match parseMMDDYYYY report_date.data with
  | some (m, d, y) => diasSemana.getD (pyWeekday y m d) "Desconocido"
  | none => "Desconocido"

example : day_of_week_str "03/10/2025" = "Lunes" := by decide
example : day_of_week_str "01/01/1970" = "Jueves" := by decide
example : day_of_week_str "Fecha desconocida" = "Desconocido" := by decide
example : day_of_week_str "02/30/2025" = "Desconocido" := by decide

/-! ## Claims about the record enricher -/

/-- C1: for a source record with a non-empty transcript whose extraction
returned a truthy (non-empty) object carrying an `es_anonima` value `v`,
the enriched record's `Registro` field is "Aviso" exactly when `v`
upper-cased equals "SI", and "Denuncia" otherwise (main.py lines 150-156). -/
theorem C1_registro_classification (doc ed : Dict) (v : String)
    (ht : dictGetD doc "Transcript" "" ≠ "")
    (hne : ed ≠ [])
    (hv : dictGet ed "es_anonima" = some v) :
    dictGet (enrichDoc doc (some ed)) "Registro" =
      some (if pyUpper v = "SI" then "Aviso" else "Denuncia") := by
  have hgetD : dictGetD ed "es_anonima" "NO" = v := by simp [dictGetD, hv]
  unfold enrichDoc
  rw [if_pos ht]
  dsimp only
  rw [if_pos hne, hgetD]
  by_cases h : pyUpper v = "SI" <;>
    simp [h, dictGet_dictSet_self]

theorem C1_registro_classification_witness :
    dictGetD [("Transcript", "hay texto")] "Transcript" "" ≠ "" ∧
    dictGet (enrichDoc [("Transcript", "hay texto")]
        (some [("es_anonima", "si")])) "Registro" =
      some (if pyUpper "si" = "SI" then "Aviso" else "Denuncia") :=
  ⟨by decide,
   C1_registro_classification [("Transcript", "hay texto")]
     [("es_anonima", "si")] "si" (by decide) (by decide) (by decide)⟩

/-- C2 is false as stated: for an empty transcript the code does not give
all seven fields one "not applicable" marker; `Síntesis` is set to
"No Transcript available." (main.py line 158) while the other five derived
fields and `Registro` are set to "N/A" (lines 159-164).  On the record
`{"Transcript": ""}` the `Síntesis` value differs from the `Tiempo` value,
so no single marker equals all seven fields. -/
theorem C2_counterexample :
    dictGet (enrichDoc [("Transcript", "")] none) "Síntesis" =
        some "No Transcript available." ∧
    dictGet (enrichDoc [("Transcript", "")] none) "Tiempo" = some "N/A" ∧
    ("No Transcript available." : String) ≠ "N/A" := by decide

/-- C2 (amended): for every source record whose transcript is empty or
absent, the enriched record has `Síntesis = "No Transcript available."`
and the five remaining derived fields and `Registro` all equal "N/A"
(main.py lines 157-164), whatever the extraction oracle would have said. -/
theorem C2_empty_transcript (doc : Dict) (ex : Option Dict)
    (ht : dictGetD doc "Transcript" "" = "") :
    dictGet (enrichDoc doc ex) "Síntesis" = some "No Transcript available." ∧
    dictGet (enrichDoc doc ex) "Tiempo" = some "N/A" ∧
    dictGet (enrichDoc doc ex) "Modo" = some "N/A" ∧
    dictGet (enrichDoc doc ex) "Circunstancia" = some "N/A" ∧
    dictGet (enrichDoc doc ex) "Alcaldía" = some "N/A" ∧
    dictGet (enrichDoc doc ex) "¿Es anónima?" = some "N/A" ∧
    dictGet (enrichDoc doc ex) "Registro" = some "N/A" := by
  unfold enrichDoc
  rw [if_neg (fun h => h ht)]
  refine ⟨?_, ?_, ?_, ?_, ?_, ?_, ?_⟩ <;>
    simp [dictGet_dictSet]

theorem C2_empty_transcript_witness :
    dictGetD [("Date", "03/10/2025")] "Transcript" "" = "" ∧
    dictGet (enrichDoc [("Date", "03/10/2025")] none) "Registro" =
      some "N/A" :=
  ⟨by decide,
   (C2_empty_transcript [("Date", "03/10/2025")] none (by decide)).2.2.2.2.2.2⟩

/-- C10: when extraction failed non-retryably, the object folded into the
record is the degraded one of main.py line 104, whose `es_anonima` is
"Error"; line 150 upper-cases it to "ERROR", which is not "SI", so the
record is classified "Denuncia" — a failed extraction is never an
"Aviso". -/
theorem C10_degraded_is_denuncia (doc : Dict) (e : String)
    (ht : dictGetD doc "Transcript" "" ≠ "") :
    dictGet (enrichDoc doc (some (degradedDict e))) "¿Es anónima?" =
        some "ERROR" ∧
    dictGet (enrichDoc doc (some (degradedDict e))) "Registro" =
        some "Denuncia" := by
  unfold enrichDoc
  rw [if_pos ht]
  dsimp only
  have hne : degradedDict e ≠ [] := by simp [degradedDict]
  rw [if_pos hne]
  have hes : dictGetD (degradedDict e) "es_anonima" "NO" = "Error" := by
    simp [degradedDict, dictGetD, dictGet]
  rw [hes]
  have hup : pyUpper "Error" = "ERROR" := by decide
  rw [hup]
  have hsi : ("ERROR" : String) ≠ "SI" := by decide
  rw [if_neg hsi]
  constructor
  · simp [dictGet_dictSet]
  · simp [dictGet_dictSet]

theorem C10_degraded_is_denuncia_witness :
    dictGetD [("Transcript", "texto")] "Transcript" "" ≠ "" ∧
    dictGet (enrichDoc [("Transcript", "texto")]
        (some (degradedDict "500 interno"))) "Registro" = some "Denuncia" :=
  ⟨by decide,
   (C10_degraded_is_denuncia [("Transcript", "texto")] "500 interno"
     (by decide)).2⟩

/-- C9 is false as stated: the enricher mutates `doc_data` in place, so a
source field that shares its name with one of the seven written fields is
overwritten, not preserved.  The source record
`{"Transcript": "", "Registro": "original"}` reaches the destination with
`Registro = "N/A"`, not its original value. -/
theorem C9_counterexample :
    dictGet [("Transcript", ""), ("Registro", "original")] "Registro" =
        some "original" ∧
    dictGet (enrichDoc [("Transcript", ""), ("Registro", "original")] none)
        "Registro" = some "N/A" ∧
    some ("N/A" : String) ≠ some "original" := by decide

/-- C9 (amended): every source field whose name is not one of the six
derived fields or `Registro` reaches the enriched record with its original
value unchanged; only those seven names are written by the enricher
(main.py lines 141-164), overwriting any source field of the same name. -/
theorem C9_frame (doc : Dict) (ex : Option Dict) (k v : String)
    (hk : k ∉ derivedKeys) (hv : dictGet doc k = some v) :
    dictGet (enrichDoc doc ex) k = some v := by
  simp only [derivedKeys, List.mem_cons, List.mem_singleton,
    List.not_mem_nil] at hk
  push_neg at hk
  obtain ⟨h1, h2, h3, h4, h5, h6, h7, -⟩ := hk
  unfold enrichDoc
  by_cases htr : dictGetD doc "Transcript" "" ≠ ""
  · rw [if_pos htr]
    cases ex with
    | none => exact hv
    | some ed =>
        dsimp only
        by_cases hed : ed ≠ []
        · rw [if_pos hed]
          by_cases hsi : pyUpper (dictGetD ed "es_anonima" "NO") = "SI" <;>
            simp [hsi, dictGet_dictSet, Ne.symm h1, Ne.symm h2, Ne.symm h3,
              Ne.symm h4, Ne.symm h5, Ne.symm h6, Ne.symm h7, hv]
        · rw [if_neg hed]; exact hv
  · rw [if_neg htr]
    simp [dictGet_dictSet, Ne.symm h1, Ne.symm h2, Ne.symm h3, Ne.symm h4,
      Ne.symm h5, Ne.symm h6, Ne.symm h7, hv]

theorem C9_frame_witness :
    "Folio" ∉ derivedKeys ∧
    dictGet (enrichDoc [("Transcript", "texto"), ("Folio", "A-77")]
        (some [("es_anonima", "NO")])) "Folio" = some "A-77" :=
  ⟨by decide,
   C9_frame [("Transcript", "texto"), ("Folio", "A-77")]
     (some [("es_anonima", "NO")]) "Folio" "A-77" (by decide) (by decide)⟩

/-! ## Claims about the retry policy -/

/-- C5: when the model call raises a rate-limit ("429") error on attempts 1
and 2 and succeeds on attempt 3, `synthesize_and_extract` returns the
parsed object and the retries slept exactly 5 + 10 seconds: the initial
delay of 5 doubled once after the first retry (main.py lines 58-99). -/
theorem C5_third_attempt_success (outcomes : Nat → Except String Dict)
    (d : Dict) (e0 e1 : String) (api_key : String)
    (hkey : api_key ≠ "")
    (h0 : outcomes 0 = .error e0) (r0 : is429 e0 = true)
    (h1 : outcomes 1 = .error e1) (r1 : is429 e1 = true)
    (h2 : outcomes 2 = .ok d) :
    synthesize_and_extract outcomes api_key = (.ok (some d), 5 + 10) := by
  simp [synthesize_and_extract, hkey, retryBody, retryLoop, h0, h1, h2,
    r0, r1, max_retries, initial_retry_delay]

theorem C5_third_attempt_success_witness :
    synthesize_and_extract
        (fun i => if i = 0 then .error "HTTP 429 a"
                  else if i = 1 then .error "HTTP 429 b"
                  else .ok [("sintesis", "resumen")])
        "clave" = (.ok (some [("sintesis", "resumen")]), 5 + 10) :=
  C5_third_attempt_success
    (fun i => if i = 0 then .error "HTTP 429 a"
              else if i = 1 then .error "HTTP 429 b"
              else .ok [("sintesis", "resumen")])
    [("sintesis", "resumen")] "HTTP 429 a" "HTTP 429 b" "clave"
    (by decide) rfl rfl rfl rfl rfl

/-- C3 is false as stated: when every attempt raises a rate-limit error,
the `raise e` of main.py line 101 leaves the retry loop but is caught by
the function's own `except` at line 102, which returns the degraded object
of line 104.  With a "429" error on all 3 attempts the call returns a
value (no exception reaches the caller), after sleeping 5 + 10 seconds. -/
theorem C3_counterexample :
    synthesize_and_extract (fun _ => .error "429 Resource exhausted")
        "clave" =
      (.ok (some (degradedDict "429 Resource exhausted")), 15) ∧
    (synthesize_and_extract (fun _ => .error "429 Resource exhausted")
        "clave").1 ≠ .error "429 Resource exhausted" :=
  ⟨rfl, fun h => Except.noConfusion h⟩

/-- C3 (amended): a rate-limit error on all 3 attempts is re-raised out of
the retry loop (the loop body ends in `.error`), but the enclosing handler
of `synthesize_and_extract` catches it and converts it into the degraded
object returned to the caller; the exhaustion does not surface as a
run-visible error for the record. -/
theorem C3_exhaustion_caught (outcomes : Nat → Except String Dict)
    (e : String) (api_key : String) (hkey : api_key ≠ "")
    (h : ∀ i, outcomes i = .error e) (r : is429 e = true) :
    retryBody outcomes = (.error e, 5 + 10) ∧
    synthesize_and_extract outcomes api_key =
      (.ok (some (degradedDict e)), 5 + 10) := by
  have hb : retryBody outcomes = (.error e, 15) := by
    simp [retryBody, retryLoop, h 0, h 1, h 2, r, max_retries,
      initial_retry_delay]
  exact ⟨by simpa using hb, by simp [synthesize_and_extract, hkey, hb]⟩

theorem C3_exhaustion_caught_witness :
    retryBody (fun _ => .error "429 cuota") = (.error "429 cuota", 5 + 10) ∧
    synthesize_and_extract (fun _ => .error "429 cuota") "clave" =
      (.ok (some (degradedDict "429 cuota")), 5 + 10) :=
  C3_exhaustion_caught (fun _ => .error "429 cuota") "429 cuota" "clave"
    (by decide) (fun _ => rfl) rfl

/-- C4 is false as stated: on a non-retryable failure the call indeed does
not raise and returns the degraded object, but only its `sintesis` field
carries the "Error: <message>" marker (main.py line 104); the other five
fields are the bare literal "Error" without the message. -/
theorem C4_counterexample :
    synthesize_and_extract (fun _ => .error "Expecting value") "clave" =
      (.ok (some (degradedDict "Expecting value")), 0) ∧
    dictGet (degradedDict "Expecting value") "tiempo" = some "Error" ∧
    ("Error" : String) ≠ "Error: Expecting value" :=
  ⟨rfl, rfl, by decide⟩

/-- C4 (amended): on any non-retryable failure (model error, malformed
JSON, non-JSON response — any exception whose text does not contain "429")
`synthesize_and_extract` does not raise to its caller: it returns the
degraded object whose `sintesis` is "Error: " followed by the message and
whose other five fields are the literal "Error" (main.py lines 100-104). -/
theorem C4_degraded_no_raise (outcomes : Nat → Except String Dict)
    (e : String) (api_key : String) (hkey : api_key ≠ "")
    (h0 : outcomes 0 = .error e) (hr : is429 e = false) :
    synthesize_and_extract outcomes api_key =
      (.ok (some (degradedDict e)), 0) ∧
    dictGet (degradedDict e) "sintesis" = some ("Error: " ++ e) ∧
    dictGet (degradedDict e) "tiempo" = some "Error" ∧
    dictGet (degradedDict e) "modo" = some "Error" ∧
    dictGet (degradedDict e) "circunstancia" = some "Error" ∧
    dictGet (degradedDict e) "alcaldia" = some "Error" ∧
    dictGet (degradedDict e) "es_anonima" = some "Error" := by
  refine ⟨?_, ?_, ?_, ?_, ?_, ?_, ?_⟩
  · simp [synthesize_and_extract, hkey, retryBody, retryLoop, h0, hr,
      max_retries, initial_retry_delay]
  all_goals simp [degradedDict, dictGet]

theorem C4_degraded_no_raise_witness :
    synthesize_and_extract (fun _ => .error "JSONDecodeError") "clave" =
      (.ok (some (degradedDict "JSONDecodeError")), 0) ∧
    dictGet (degradedDict "JSONDecodeError") "sintesis" =
      some ("Error: " ++ "JSONDecodeError") :=
  ⟨(C4_degraded_no_raise (fun _ => .error "JSONDecodeError")
      "JSONDecodeError" "clave" (by decide) rfl rfl).1,
   (C4_degraded_no_raise (fun _ => .error "JSONDecodeError")
      "JSONDecodeError" "clave" (by decide) rfl rfl).2.1⟩


/-! ## Claim about the batched write loop -/

theorem runStep_full (extract : String → Dict → Option Dict)
    (st : RunState) (doc : String × Dict) (h : st.batch.length = 399) :
    runStep extract st doc =
      ⟨[], st.committed ++
        [st.batch ++ [(doc.1, enrichDoc doc.2 (extract doc.1 doc.2))]]⟩ := by
  simp only [runStep]
  rw [if_pos (by simp [h])]

theorem runStep_stage (extract : String → Dict → Option Dict)
    (st : RunState) (doc : String × Dict) (h : st.batch.length + 1 < 400) :
    runStep extract st doc =
      ⟨st.batch ++ [(doc.1, enrichDoc doc.2 (extract doc.1 doc.2))],
       st.committed⟩ := by
  simp only [runStep]
  rw [if_neg (by simp; omega)]

theorem runFold_inv (extract : String → Dict → Option Dict)
    (docs : List (String × Dict)) :
    ∀ st : RunState, st.batch.length < 400 →
      (docs.foldl (runStep extract) st).batch.length =
        (st.batch.length + docs.length) % 400 ∧
      (docs.foldl (runStep extract) st).committed.map List.length =
        st.committed.map List.length ++
          List.replicate ((st.batch.length + docs.length) / 400) 400 := by
  induction docs with
  | nil =>
      intro st h
      constructor
      · simp [Nat.mod_eq_of_lt h]
      · simp [Nat.div_eq_of_lt h]
  | cons doc rest ih =>
      intro st h
      rw [List.foldl_cons]
      by_cases hb : st.batch.length + 1 ≥ 400
      · have hb399 : st.batch.length = 399 := by omega
        rw [runStep_full extract st doc hb399]
        obtain ⟨ih1, ih2⟩ :=
          ih ⟨[], st.committed ++
            [st.batch ++ [(doc.1, enrichDoc doc.2 (extract doc.1 doc.2))]]⟩
            (by simp)
        constructor
        · rw [ih1]
          dsimp only
          simp only [List.length_cons, List.length_nil]
          omega
        · rw [ih2]
          dsimp only
          simp only [List.map_append, List.map_cons, List.map_nil,
            List.length_append, List.length_cons, List.length_nil,
            hb399]
          have hdiv : (399 + (rest.length + 1)) / 400 = rest.length / 400 + 1 := by
            omega
          rw [hdiv, List.replicate_succ]
          simp [hb399]
      · have hlt : st.batch.length + 1 < 400 := by omega
        rw [runStep_stage extract st doc hlt]
        obtain ⟨ih1, ih2⟩ :=
          ih ⟨st.batch ++ [(doc.1, enrichDoc doc.2 (extract doc.1 doc.2))],
              st.committed⟩ (by simpa using hlt)
        constructor
        · rw [ih1]
          dsimp only
          simp only [List.length_append, List.length_cons, List.length_nil]
          congr 1
          omega
        · rw [ih2]
          dsimp only
          simp only [List.length_append, List.length_cons, List.length_nil]
          congr 3
          omega

/-- C6: the in-progress batch never holds more than 400 staged writes.
After each record the staged count is `processed % 400` (so staging the
400th write commits the batch of exactly 400 and resets it to empty within
the same iteration, before any further record is staged), and the commit
sizes of a whole run over `n` documents are `n / 400` full batches of 400
followed by one trailing batch of `n % 400` exactly when `n % 400 > 0` —
an empty trailing batch is not committed (main.py lines 174-183). -/
theorem C6_batch_bound (extract : String → Dict → Option Dict)
    (docs : List (String × Dict)) :
    (runLoop extract docs).batch.length = docs.length % 400 ∧
    (runCommits extract docs).map List.length =
      List.replicate (docs.length / 400) 400 ++
        (if docs.length % 400 = 0 then [] else [docs.length % 400]) := by
  obtain ⟨h1, h2⟩ := runFold_inv extract docs ⟨[], []⟩ (by simp)
  have hb : (runLoop extract docs).batch.length = docs.length % 400 := by
    simpa [runLoop] using h1
  have hc : (runLoop extract docs).committed.map List.length =
      List.replicate (docs.length / 400) 400 := by
    simpa [runLoop] using h2
  refine ⟨hb, ?_⟩
  unfold runCommits
  by_cases hz : docs.length % 400 = 0
  · rw [if_neg (by rw [hb, hz]; omega)]
    rw [hc, hz]
    simp
  · rw [if_pos (by rw [hb]; omega)]
    rw [List.map_append, hc]
    simp [hb, hz]

/-! ## Claims about response parsing and the weekday label -/

/-- C7: a model response that is a JSON payload wrapped in the leading
fence marker and the trailing fence marker parses, after the clean-up of
main.py lines 88-92, to the very value the unfenced payload parses to: the
fence stripping recovers the payload exactly, so fenced and unfenced
responses produce identical objects. -/
theorem C7_fenced_parses_identically (s : List Char) (v : JVal)
    (h : jsonLoads s = some v) :
    jsonLoads (cleanContent (fenceOpen ++ (s ++ fenceClose))) = some v := by
  rw [cleanContent_fenced]
  exact h

theorem C7_fenced_parses_identically_witness :
    jsonLoads (cleanContent (fenceOpen ++
        ("\x7b\x22es_anonima\x22: \x22SI\x22\x7d".data ++ fenceClose))) =
      some (.jobj [("es_anonima".data, .jstr "SI".data)]) :=
  C7_fenced_parses_identically "\x7b\x22es_anonima\x22: \x22SI\x22\x7d".data
    (.jobj [("es_anonima".data, .jstr "SI".data)]) rfl

/-- C8: the weekday label parses `report_date` as month/day/year, so
"03/10/2025" is March 10, 2025 — a Monday — and yields "Lunes"; and every
string `strptime` rejects yields the sentinel "Desconocido" through the
`except: pass` of main.py lines 50-51, never an exception, so a bad date
cannot abort extraction. -/
theorem C8_weekday (s : String) :
    day_of_week_str "03/10/2025" = "Lunes" ∧
    (parseMMDDYYYY s.data = none → day_of_week_str s = "Desconocido") := by
  constructor
  · decide
  · intro h
    simp [day_of_week_str, h]

theorem C8_weekday_witness :
    parseMMDDYYYY "Fecha desconocida".data = none ∧
    day_of_week_str "Fecha desconocida" = "Desconocido" :=
  ⟨by decide, (C8_weekday "Fecha desconocida").2 (by decide)⟩
